import Mathlib

/-!
Verification of the visualpanic-rs library (src/src/lib.rs): a shallow
embedding of the configuration type `VisualPanic`, its constructors
`default` and `new`, and the panic handler closure installed by
`register_global`, together with theorems about the claims of the spec.

The panic handler is embedded as a pure function from the captured
configuration and the panic information supplied by the runtime to
`Except String DialogParams`: an `Except.error` models a fatal `.expect`
failure inside the handler (the handler panics and no dialog is shown),
and `Except.ok` carries exactly the parameters handed to the native
message dialog (`set_title`, `set_type`, `set_text`).
-/

/-- The dialog levels of the library (`VisualPanicLevel` in lib.rs). -/
inductive VisualPanicLevel where
  | Error
  | Warning
  | Info

/-- The severity type of the native dialog collaborator
(`native_dialog::MessageType`). -/
inductive MessageType where
  | Error
  | Warning
  | Info

/-- The configuration struct of lib.rs: three independent optional fields. -/
structure VisualPanic where
  custom_icon : Option String
  custom_title : Option String
  custom_level : Option VisualPanicLevel

/-- `VisualPanic::default()` from lib.rs: all fields set to `None`. -/
def VisualPanic.default : VisualPanic :=
  { custom_icon := none, custom_title := none, custom_level := none }

/-- `VisualPanic::new(custom_icon, custom_title, custom_level)` from lib.rs:
starts from an all-`None` value and overwrites exactly the provided fields. -/
def VisualPanic.new (custom_icon : Option String) (custom_title : Option String)
    (custom_level : Option VisualPanicLevel) : VisualPanic :=
  let return_val : VisualPanic :=
    { custom_icon := none, custom_title := none, custom_level := none }
  let return_val :=
    match custom_icon with
    | some icon_str => { return_val with custom_icon := some icon_str }
    | none => return_val
  let return_val :=
    match custom_title with
    | some title_str => { return_val with custom_title := some title_str }
    | none => return_val
  let return_val :=
    match custom_level with
    | some lv => { return_val with custom_level := some lv }
    | none => return_val
  return_val

/-- The source location the runtime hands to the hook
(`std::panic::Location`): file, line, column. -/
structure SourceLocation where
  file : String
  line : Nat
  column : Nat

/-- The panic information the runtime hands to the hook (`&PanicInfo`):
the payload downcast to a string when it is one, the location when
available, and the formatted message when available. -/
structure PanicInfo where
  payload_str : Option String
  location : Option SourceLocation
  message : Option String

/-- Modelled from the spec: the build-time package name constant read by
`env!("CARGO_PKG_NAME")` in lib.rs. The package manifest is not under
src/; the spec describes the fallback title as "a default derived from
the build's package name", which for this repository is its crate name. -/
def CARGO_PKG_NAME : String := "visualpanic-rs"

/-- The parameters passed to the native dialog by the handler:
`set_title(&title)`, `set_type(level)`, `set_text(&display_message)`. -/
structure DialogParams where
  title : String
  level : MessageType
  text : String

/-- The closure installed by `register_global` in lib.rs, as a pure
function of the captured configuration clone and the panic information.
`Except.error s` models the handler itself panicking via `.expect(s)`
before any dialog is shown. -/
def panicHook (clone : VisualPanic) (panic_info : PanicInfo) :
    Except String DialogParams :=
  let level : MessageType := MessageType.Error
  let icon : Option String := none
  let title : String := CARGO_PKG_NAME
  match panic_info.payload_str with
  | none => Except.error "Failed to extract Panic Payload to &str."
  | some payload_as_str =>
    match panic_info.location with
    | none => Except.error "Failed to get location where the panic occured."
    | some location =>
      match panic_info.message with
      | none => Except.error "Failed to extract message."
      | some message =>
        let location_str :=
          "File: " ++ location.file ++ " at Line: " ++ toString location.line
            ++ ", Column: " ++ toString location.column
        let display_message :=
          "An error occured.\n(" ++ location_str ++ ")\n\nPayload: "
            ++ payload_as_str ++ "\n\nMessage: " ++ message
            ++ "\n\nThe program will terminate.\n"
        let title :=
          match clone.custom_title with
          | none => title
          | some custom => custom
        let level :=
          match clone.custom_level with
          | none => level
          | some custom =>
            match custom with
            | VisualPanicLevel.Error => MessageType.Error
            | VisualPanicLevel.Warning => MessageType.Warning
            | VisualPanicLevel.Info => MessageType.Info
        let icon :=
          match clone.custom_icon with
          | none => icon
          | some custom => some custom
        Except.ok { title := title, level := level, text := display_message }

/-- The process-wide panic-hook slot (`std::panic::set_hook` owns exactly
one hook per process). The installed closure is determined by the
configuration it captured, so the slot stores that configuration. -/
structure ProcessState where
  hook : Option VisualPanic

/-- `std::panic::set_hook`: replaces the current process-wide hook. -/
def set_hook (st : ProcessState) (c : VisualPanic) : ProcessState :=
  { hook := some c }

/-- `VisualPanic::register_global(self)` from lib.rs: clones the
configuration and installs the clone as the process-wide hook. -/
def register_global (self : VisualPanic) (st : ProcessState) : ProcessState :=
  let clone := self
  set_hook st clone

/-- A panic reaching the runtime runs the installed hook, when one is
installed, on the panic information. -/
def handle_panic (st : ProcessState) (panic_info : PanicInfo) :
    Option (Except String DialogParams) :=
  st.hook.map (fun c => panicHook c panic_info)

/-- Boolean test that `pat` starts the character list `s`. -/
def isPrefOf : List Char → List Char → Bool
  | [], _ => true
  | _ :: _, [] => false
  | a :: as, b :: bs => a == b && isPrefOf as bs

/-- Number of (possibly overlapping) occurrences of `pat` in `s`. -/
def countOccsAux (pat : List Char) : List Char → Nat
  | [] => 0
  | c :: rest => (if isPrefOf pat (c :: rest) then 1 else 0) + countOccsAux pat rest

/-- Number of occurrences of the string `pat` inside the string `s`. -/
def countOccs (s : String) (pat : String) : Nat :=
  countOccsAux pat.data s.data

/-- The location string composed by the handler for a location. -/
def locationStr (location : SourceLocation) : String :=
  "File: " ++ location.file ++ " at Line: " ++ toString location.line
    ++ ", Column: " ++ toString location.column

/-- C1. The display text composed by the installed handler does NOT begin
with the spelling "An error occurred.": at a concrete panic input the
composed text starts with the source's spelling "An error occured."
(single r), so the claimed preamble is not a beginning of the text. -/
theorem c1_counterexample :
    (panicHook VisualPanic.default
        { payload_str := some "boom",
          location := some { file := "app.rs", line := 10, column := 4 },
          message := some "index out of range" }).toOption.map
      (fun d => isPrefOf "An error occurred.".data d.text.data) = some false := by
  decide

/-- C1 (amended). For every panic input with string payload, available
location and available message, the display text composed by the handler
is exactly the fixed preamble "An error occured." (as spelled in the
source), followed by the location, the raw payload, the raw message, and
the fixed notice that the program will terminate. -/
theorem c1_display_format (c : VisualPanic) (p m : String) (loc : SourceLocation) :
    (panicHook c { payload_str := some p, location := some loc, message := some m }).toOption.map
        DialogParams.text =
      some ("An error occured.\n(" ++ locationStr loc ++ ")\n\nPayload: "
        ++ p ++ "\n\nMessage: " ++ m ++ "\n\nThe program will terminate.\n") := by
  obtain ⟨i, t, l⟩ := c
  cases t <;> cases l <;> rfl

/-- C2. The composed display text does NOT contain the raw payload string
exactly once for every panic input: at a concrete input with payload "a",
available location and message "b", the payload occurs more than once in
the text (it also occurs inside the fixed template words). -/
theorem c2_counterexample :
    (panicHook VisualPanic.default
        { payload_str := some "a",
          location := some { file := "f", line := 1, column := 1 },
          message := some "b" }).toOption.map
      (fun d => countOccs d.text "a") ≠ some 1 := by
  decide

/-- C2 (amended). For every panic input with string payload, available
location and available message, the display text composed by the handler
contains the resolved location string, then the raw payload string, then
the raw message string, verbatim and in that relative order: the text
decomposes as fixed template pieces around those three strings. -/
theorem c2_order (c : VisualPanic) (p m : String) (loc : SourceLocation) :
    ∃ d, panicHook c { payload_str := some p, location := some loc, message := some m }
        = Except.ok d ∧
      d.text = "An error occured.\n(" ++ (locationStr loc ++ (")\n\nPayload: "
        ++ (p ++ ("\n\nMessage: " ++ (m ++ "\n\nThe program will terminate.\n"))))) := by
  obtain ⟨i, t, l⟩ := c
  cases t <;> cases l <;> exact ⟨_, rfl, by simp [locationStr, String.append_assoc]⟩

/-- C3. Registering configuration c1 and then c2 leaves the process in
the same state as registering c2 alone, and every subsequent panic is
handled by the hook built from c2 only: replacement, not chaining. -/
theorem c3_replacement (st : ProcessState) (c1 c2 : VisualPanic) (panic_info : PanicInfo) :
    register_global c2 (register_global c1 st) = register_global c2 st ∧
      handle_panic (register_global c2 (register_global c1 st)) panic_info
        = some (panicHook c2 panic_info) :=
  ⟨rfl, rfl⟩

/-- C4. For every configuration and panic input with string payload,
available location and message, the severity in the dialog parameters is
the configuration's level when set (Error to Error, Warning to Warning,
Info to Info) and Error when unset. -/
theorem c4_level (c : VisualPanic) (p m : String) (loc : SourceLocation) :
    (panicHook c { payload_str := some p, location := some loc, message := some m }).toOption.map
        DialogParams.level =
      some (match c.custom_level with
        | none => MessageType.Error
        | some VisualPanicLevel.Error => MessageType.Error
        | some VisualPanicLevel.Warning => MessageType.Warning
        | some VisualPanicLevel.Info => MessageType.Info) := by
  obtain ⟨i, t, l⟩ := c
  cases t <;> rcases l with _ | lv
  case _ => rfl
  case _ => cases lv <;> rfl
  case _ => rfl
  case _ => cases lv <;> rfl

/-- C5. For every configuration and panic input with string payload,
available location and message, the title in the dialog parameters is the
configuration's title when set, else the build's package name. -/
theorem c5_title (c : VisualPanic) (p m : String) (loc : SourceLocation) :
    (panicHook c { payload_str := some p, location := some loc, message := some m }).toOption.map
        DialogParams.title =
      some (match c.custom_title with
        | none => CARGO_PKG_NAME
        | some custom => custom) := by
  obtain ⟨i, t, l⟩ := c
  cases t <;> cases l <;> rfl

/-- C6. For every configuration and every panic input whose payload is
not a string or whose location is unavailable, the installed handler
fails fatally with one of its extraction errors and produces no dialog
parameters. -/
theorem c6_extraction_fatal (c : VisualPanic) (panic_info : PanicInfo)
    (h : panic_info.payload_str = none ∨ panic_info.location = none) :
    ∃ e, panicHook c panic_info = Except.error e := by
  obtain ⟨p, loc, m⟩ := panic_info
  rcases h with h | h
  · simp only at h
    subst h
    exact ⟨_, rfl⟩
  · simp only at h
    subst h
    cases p
    · exact ⟨_, rfl⟩
    · exact ⟨_, rfl⟩

/-- C6 witness: the handler on a concrete malformed input (non-string
payload) produces an error and no dialog parameters. -/
theorem c6_extraction_fatal_witness :
    ∃ e, panicHook VisualPanic.default
        { payload_str := none,
          location := some { file := "f", line := 1, column := 1 },
          message := some "m" } = Except.error e :=
  c6_extraction_fatal VisualPanic.default
    { payload_str := none,
      location := some { file := "f", line := 1, column := 1 },
      message := some "m" } (Or.inl rfl)

/-- C7. Two configurations that differ only in the icon field lead the
installed handler to identical results on every panic input: identical
dialog parameters on success and identical errors on failure. -/
theorem c7_icon_no_effect (c : VisualPanic) (i1 i2 : Option String)
    (panic_info : PanicInfo) :
    panicHook { c with custom_icon := i1 } panic_info
      = panicHook { c with custom_icon := i2 } panic_info := by
  obtain ⟨p, loc, m⟩ := panic_info
  cases p <;> cases loc <;> cases m <;> rfl

/-- C8. default() returns the configuration with all three fields unset;
it is a total constructor, so construction cannot fail. -/
theorem c8_default_unset :
    VisualPanic.default.custom_icon = none
      ∧ VisualPanic.default.custom_title = none
      ∧ VisualPanic.default.custom_level = none :=
  ⟨rfl, rfl, rfl⟩

/-- C9. For every combination of optional arguments, new(icon, title,
level) returns the configuration whose fields are exactly the given
options: provided fields are set to the given values (any string,
including the empty one, is accepted unvalidated) and absent fields are
unset. -/
theorem c9_new_fields (custom_icon custom_title : Option String)
    (custom_level : Option VisualPanicLevel) :
    VisualPanic.new custom_icon custom_title custom_level
      = { custom_icon := custom_icon, custom_title := custom_title,
          custom_level := custom_level } := by
  cases custom_icon <;> cases custom_title <;> cases custom_level <;> rfl

/-- C10. Even with a string payload and an available location, the
installed handler fails fatally when the panic message is unavailable:
message extraction is a third precondition for showing the dialog. -/
theorem c10_message_fatal (c : VisualPanic) (p : String) (loc : SourceLocation) :
    panicHook c { payload_str := some p, location := some loc, message := none }
      = Except.error "Failed to extract message." :=
  rfl
